import Mathlib

/-!
Verification of the lot-lifecycle and order-reconciliation engine of
`src/app.py` (a single-symbol grid-trading bot).

Prices are modelled as rationals; Python's `round(p, 2)` is rounding
half to even on the second decimal.  The sqlite `lots` table is a list
of rows in insertion (id) order; `AUTOINCREMENT` assigns increasing ids,
so list order coincides with id order.  Brokerage calls are inputs of a
cycle: an order lookup that may fail (`none` models the exception that
the bare `except: pass` in `sync_orders` swallows), a per-lot sell
submission outcome, and a buy submission outcome (`none` models a
submission that raises, caught by `except: pass`).

Connection/transaction behaviour of `run_cycle` is modelled explicitly:
`sync_orders` commits on its own connection; the sell-pass `UPDATE`s and
the buy `INSERT` of `run_cycle` are staged on a second connection and
become durable only at the `conn.commit()` on line 290, which is reached
only when the buy pass falls through to the final submit block.  Every
early `return` of the buy pass calls `conn.close()` without `commit()`,
which discards the staged updates (the Python sqlite3 module rolls back
uncommitted changes when a connection is closed), so those paths leave
the durable store at the post-`sync_orders` state.  `deployed_capital`
and `open_buy_exists` each open their own fresh connection and therefore
read the committed state, not the staged sell updates.
-/

inductive BuyStatus where
  | buySubmitted
  | bought
deriving DecidableEq, Repr

inductive SellStatus where
  | sellSubmitted
  | sold
deriving DecidableEq, Repr

/-- A row of the `lots` table.  `buy_status` is always set at insertion
(`'BUY_SUBMITTED'`); `sell_status` is `NULL` (`none`) until a sell is
submitted.  Order ids are opaque (naturals here; TEXT in the schema);
timestamps are abstract instants (`ℕ`). -/
structure Lot where
  id : ℕ
  buy_order_id : ℕ
  buy_status : BuyStatus
  buy_limit_price : ℚ
  buy_filled_price : Option ℚ
  qty : ℤ
  buy_created_at : ℕ
  sell_order_id : Option ℕ
  sell_status : Option SellStatus
  sell_limit_price : Option ℚ
  sell_filled_price : Option ℚ
  sell_created_at : Option ℕ
deriving DecidableEq, Repr

/-- Python `round` to an integer: round half to even. -/
def round_half_even (x : ℚ) : ℤ :=
  if x - ⌊x⌋ < 1/2 then ⌊x⌋
  else if 1/2 < x - ⌊x⌋ then ⌊x⌋ + 1
  else if ⌊x⌋ % 2 = 0 then ⌊x⌋ else ⌊x⌋ + 1

/-- Model of `round_price` from `src/app.py`: `round(p, 2)`. -/
def round_price (p : ℚ) : ℚ := (round_half_even (p * 100) : ℚ) / 100

/-- Result of `trading.get_order_by_id`: whether `o.status == "filled"`,
and `o.filled_avg_price`. -/
structure OrderInfo where
  filled : Bool
  filled_avg_price : ℚ
deriving DecidableEq, Repr

/-- Per-symbol configuration constants of `src/app.py` (`LOWER_BAND`,
`UPPER_BAND`, `GRID_PERCENT`, `ORDER_USD`, `MAX_CAPITAL`) together with
the process-wide `TRADING_ENABLED` flag. -/
structure Config where
  lower_band : ℚ
  upper_band : ℚ
  grid_pct : ℚ
  order_usd : ℚ
  max_capital : ℚ
  trading_enabled : Bool

/-- External observations and effects of one invocation of `run_cycle`:
the market clock, the latest trade price, the brokerage's reply to order
lookups (keyed by order id; `none` = the lookup raised), the outcome of
submitting the sell for a given lot (keyed by lot id; `some oid` = the
brokerage accepted and returned order id `oid`, `none` = the submission
raised), the outcome of the single buy submission, and the `now()`
timestamp. -/
structure CycleInput where
  is_open : Bool
  price : ℚ
  ord : ℕ → Option OrderInfo
  sellSubmit : ℕ → Option ℕ
  buySubmit : Option ℕ
  tNow : ℕ

/-- A sell order accepted by the brokerage during the sell pass. -/
structure SellOrder where
  order_id : ℕ
  lot_id : ℕ
  limit_price : ℚ
  qty : ℤ
deriving DecidableEq, Repr

/-- Outcome of `run_cycle`: the durable (committed) lot store, the sell
orders the brokerage accepted during the sell pass, and the buy order id
when a buy was accepted. -/
structure CycleResult where
  store : List Lot
  sellOrders : List SellOrder
  buyOrder : Option ℕ
deriving DecidableEq, Repr

/-- The SQL test `buy_status='BOUGHT'`. -/
def statusIsBought : BuyStatus → Bool
  | .bought => true
  | .buySubmitted => false

/-- The SQL test `buy_status='BUY_SUBMITTED'`. -/
def statusIsSubmitted : BuyStatus → Bool
  | .buySubmitted => true
  | .bought => false

/-- The SQL test `sell_status IS NULL`. -/
def sellIsNull : Option SellStatus → Bool
  | none => true
  | some _ => false

/-- The SQL test `sell_status='SOLD'` (`NULL` compares unequal). -/
def sellIsSold : Option SellStatus → Bool
  | some .sold => true
  | some .sellSubmitted => false
  | none => false

/-- First loop of `sync_orders`: a lot with `buy_status='BUY_SUBMITTED'`
whose order lookup reports `filled` becomes `BOUGHT` with the reported
`filled_avg_price`; a failed lookup (`none`) or a non-filled status
leaves the row unchanged. -/
def syncBuyLot (ord : ℕ → Option OrderInfo) (l : Lot) : Lot :=
  if statusIsSubmitted l.buy_status then
    match ord l.buy_order_id with
    | some o =>
        if o.filled then
          { l with buy_status := .bought, buy_filled_price := some o.filled_avg_price }
        else l
    | none => l
  else l

/-- Second loop of `sync_orders`: a lot with `sell_status='SELL_SUBMITTED'`
whose order lookup reports `filled` becomes `SOLD` with the reported
`filled_avg_price`. -/
def syncSellLot (ord : ℕ → Option OrderInfo) (l : Lot) : Lot :=
  if l.sell_status = some SellStatus.sellSubmitted then
    match l.sell_order_id with
    | some soid =>
        match ord soid with
        | some o =>
            if o.filled then
              { l with sell_status := some .sold, sell_filled_price := some o.filled_avg_price }
            else l
        | none => l
    | none => l
  else l

/-- Model of `sync_orders` from `src/app.py`: reconcile pending buys, then
pending sells, against the brokerage, committing on its own
connection.  The two loops update disjoint fields keyed by status, so
they compose as two row-wise passes. -/
def sync_orders (ord : ℕ → Option OrderInfo) (st : List Lot) : List Lot :=
  (st.map (syncBuyLot ord)).map (syncSellLot ord)

/-- Model of `deployed_capital` from `src/app.py`: `COALESCE(SUM(buy_filled_price
* qty), 0)` over `buy_status='BOUGHT' AND sell_status IS NULL`, plus
`COALESCE(SUM(buy_limit_price * qty), 0)` over
`buy_status='BUY_SUBMITTED'`.  A `NULL` `buy_filled_price` contributes
nothing to a SQL `SUM`, hence `Option.getD 0`. -/
def deployed_capital (st : List Lot) : ℚ :=
  ((st.filter fun l => statusIsBought l.buy_status && sellIsNull l.sell_status).map
      fun l => l.buy_filled_price.getD 0 * (l.qty : ℚ)).sum
  + ((st.filter fun l => statusIsSubmitted l.buy_status).map
      fun l => l.buy_limit_price * (l.qty : ℚ)).sum

/-- Model of `open_buy_exists` from `src/app.py`: `COUNT(*) > 0` over
`buy_status='BUY_SUBMITTED' AND ABS(buy_limit_price - ?) < 0.0001`. -/
def open_buy_exists (st : List Lot) (price : ℚ) : Bool :=
  st.any fun l =>
    statusIsSubmitted l.buy_status && decide (|l.buy_limit_price - price| < 1/10000)

/-- The anchor query of the buy pass: `SELECT buy_filled_price FROM lots
WHERE buy_status='BOUGHT' ORDER BY id DESC LIMIT 1` — the fill price of
the most recently inserted `BOUGHT` row (the store is kept in id order).
A `BOUGHT` row always carries a fill price (set together with the status
by the reconciler); `getD 0` mirrors the row value for well-formed rows. -/
def last_filled_buy_price (st : List Lot) : Option ℚ :=
  ((st.filter fun l => statusIsBought l.buy_status).getLast?).map
    fun l => l.buy_filled_price.getD 0

/-- Eligibility for the sell pass: `buy_status='BOUGHT' AND (sell_status
IS NULL OR sell_status!='SOLD')`.  Note this keeps rows whose
`sell_status` is `'SELL_SUBMITTED'`. -/
def sellEligible (l : Lot) : Bool :=
  statusIsBought l.buy_status && !sellIsSold l.sell_status

/-- Body of one sell-pass iteration for row `r` of the snapshot: the
target price, the trigger comparison, the `TRADING_ENABLED` check and
the submission outcome.  Returns the accepted order, if any.  The body
reads only the snapshot row `r`, never the staged state, so the loop
factors into a per-row decision. -/
def sellDecision (cfg : Config) (inp : CycleInput) (r : Lot) : Option SellOrder :=
  if round_price (r.buy_filled_price.getD 0 * (1 + cfg.grid_pct)) ≤ inp.price then
    if cfg.trading_enabled then
      match inp.sellSubmit r.id with
      | some oid =>
          some { order_id := oid, lot_id := r.id,
                 limit_price := round_price (r.buy_filled_price.getD 0 * (1 + cfg.grid_pct)),
                 qty := r.qty }
      | none => none
    else none
  else none

/-- The `UPDATE lots SET sell_status='SELL_SUBMITTED', ... WHERE id=?`
staged after an accepted sell submission. -/
def applySellUpdate (o : SellOrder) (t : ℕ) (st : List Lot) : List Lot :=
  st.map fun l =>
    if l.id = o.lot_id then
      { l with sell_status := some .sellSubmitted, sell_order_id := some o.order_id,
               sell_limit_price := some o.limit_price, sell_created_at := some t }
    else l

/-- The staged state after the sell loop: each accepted submission's
update applied in snapshot order. -/
def sell_state (cfg : Config) (inp : CycleInput) (st1 : List Lot) : List Lot :=
  (st1.filter sellEligible).foldl
    (fun acc r =>
      match sellDecision cfg inp r with
      | some o => applySellUpdate o inp.tNow acc
      | none => acc)
    st1

/-- The sell orders the brokerage accepted during the sell loop, in
snapshot order. -/
def sell_orders (cfg : Config) (inp : CycleInput) (st1 : List Lot) : List SellOrder :=
  (st1.filter sellEligible).filterMap (sellDecision cfg inp)

/-- The id `AUTOINCREMENT` assigns to the next inserted row. -/
def next_id (st : List Lot) : ℕ := (st.map Lot.id).foldl max 0 + 1

/-- The row inserted by the buy pass (`INSERT INTO lots (symbol,
buy_order_id, buy_status, buy_limit_price, qty, buy_created_at) VALUES
(?, ?, 'BUY_SUBMITTED', ?, ?, ?)`). -/
def mkBuyLot (lid oid : ℕ) (limit : ℚ) (q : ℤ) (t : ℕ) : Lot :=
  { id := lid, buy_order_id := oid, buy_status := .buySubmitted,
    buy_limit_price := limit, buy_filled_price := none, qty := q,
    buy_created_at := t, sell_order_id := none, sell_status := none,
    sell_limit_price := none, sell_filled_price := none, sell_created_at := none }

/-- The buy logic of `run_cycle` (lines 228-291).  `st1` is the durable
state after `sync_orders` (what the fresh connections of
`deployed_capital` and `open_buy_exists` read); `stW` is the staged
state on `run_cycle`'s own connection (what its cursor reads, and what
`conn.commit()` would make durable); `sells` are the sell orders already
accepted by the brokerage.  Every early `return` closes the connection
without committing, so it yields the durable state `st1`; only the final
block reaches `conn.commit()` and makes `stW` (plus the inserted row on
an accepted submission) durable. -/
def buy_pass (cfg : Config) (inp : CycleInput) (st1 stW : List Lot)
    (sells : List SellOrder) : CycleResult :=
  if ¬(cfg.lower_band ≤ inp.price ∧ inp.price ≤ cfg.upper_band) then
    { store := st1, sellOrders := sells, buyOrder := none }
  else if cfg.max_capital ≤ deployed_capital st1 then
    { store := st1, sellOrders := sells, buyOrder := none }
  else
    let anchor := (last_filled_buy_price stW).getD inp.price
    let buy_price := round_price (anchor * (1 - cfg.grid_pct))
    if buy_price < inp.price then
      { store := st1, sellOrders := sells, buyOrder := none }
    else if open_buy_exists st1 buy_price then
      { store := st1, sellOrders := sells, buyOrder := none }
    else if ⌊cfg.order_usd / buy_price⌋ ≤ 0 then
      { store := st1, sellOrders := sells, buyOrder := none }
    else if cfg.trading_enabled = false then
      { store := st1, sellOrders := sells, buyOrder := none }
    else
      match inp.buySubmit with
      | none => { store := stW, sellOrders := sells, buyOrder := none }
      | some oid =>
          { store := stW ++ [mkBuyLot (next_id stW) oid buy_price
              ⌊cfg.order_usd / buy_price⌋ inp.tNow],
            sellOrders := sells, buyOrder := some oid }

/-- Model of `run_cycle` from `src/app.py`: return unchanged when the market is
closed; otherwise reconcile orders (committed separately), run the sell
pass (staged), then the buy pass. -/
def run_cycle (cfg : Config) (inp : CycleInput) (st : List Lot) : CycleResult :=
  if inp.is_open then
    buy_pass cfg inp (sync_orders inp.ord st)
      (sell_state cfg inp (sync_orders inp.ord st))
      (sell_orders cfg inp (sync_orders inp.ord st))
  else { store := st, sellOrders := [], buyOrder := none }

/-- Response of the `/run` route: HTTP status, the cycle outcome, and
whether `run_cycle` was invoked at all. -/
structure RouteResult where
  status : ℕ
  result : CycleResult
  invoked : Bool
deriving DecidableEq, Repr

/-- Python truthiness of `os.getenv`'s result: `None` and `""` are falsy. -/
def strTruthy : Option String → Bool
  | none => false
  | some s => s != ""

/-- The `/run` route of `src/app.py`: `if RUN_TOKEN and token !=
RUN_TOKEN: return 403`; otherwise `run_cycle()` then 200.  `run_token`
is the `RUN_TOKEN` environment value, `header` the `X-RUN-TOKEN` request
header (absent = `none`). -/
def run_route (run_token header : Option String) (cfg : Config) (inp : CycleInput)
    (st : List Lot) : RouteResult :=
  if strTruthy run_token = true ∧ header ≠ run_token then
    { status := 403, result := { store := st, sellOrders := [], buyOrder := none },
      invoked := false }
  else
    { status := 200, result := run_cycle cfg inp st, invoked := true }

/-- Lot stores reachable from the empty table by complete invocation
cycles, with arbitrary configuration and brokerage behaviour each
cycle. -/
inductive Reach : List Lot → Prop where
  | empty : Reach []
  | step (cfg : Config) (inp : CycleInput) (st : List Lot) :
      Reach st → Reach (run_cycle cfg inp st).store

/-- Stated from the spec's words for §4.1 (the refinement reference for
the capital ledger): sum of `buy_filled_price × qty` over lots with
`buy_status=BOUGHT ∧ sell_status≠SOLD`, plus sum of `buy_limit_price ×
qty` over lots with `buy_status=BUY_SUBMITTED`. -/
def spec_deployed_capital (st : List Lot) : ℚ :=
  ((st.filter fun l => statusIsBought l.buy_status && !sellIsSold l.sell_status).map
      fun l => l.buy_filled_price.getD 0 * (l.qty : ℚ)).sum
  + ((st.filter fun l => statusIsSubmitted l.buy_status).map
      fun l => l.buy_limit_price * (l.qty : ℚ)).sum

/-- Row-wise statement of the capital ledger the code computes: each lot
contributes `buy_filled_price × qty` when `buy_status=BOUGHT ∧
sell_status IS NULL`, and `buy_limit_price × qty` when
`buy_status=BUY_SUBMITTED`. -/
def capital_by_row (st : List Lot) : ℚ :=
  (st.map fun l =>
    (if statusIsBought l.buy_status && sellIsNull l.sell_status then
        l.buy_filled_price.getD 0 * (l.qty : ℚ) else 0)
    + (if statusIsSubmitted l.buy_status then l.buy_limit_price * (l.qty : ℚ) else 0)).sum

/-- Stated from the claim's words: a lot holds an "open buy" while
`buy_status ∈ {BUY_SUBMITTED, BOUGHT}` and `sell_status ≠ SOLD`. -/
def claimOpenBuy (l : Lot) : Bool :=
  (statusIsSubmitted l.buy_status || statusIsBought l.buy_status) && !sellIsSold l.sell_status

/-- Separation of pending grid levels: two lots do not both hold
`BUY_SUBMITTED` buys within the 0.0001 duplicate-level tolerance of each
other. -/
def pendingLevelSeparated (a b : Lot) : Prop :=
  statusIsSubmitted a.buy_status = true → statusIsSubmitted b.buy_status = true →
    ¬ |a.buy_limit_price - b.buy_limit_price| < 1/10000

/-- The buy-side projection of a row: the pair of fields the duplicate
guard reads. -/
def buyProj (l : Lot) : BuyStatus × ℚ := (l.buy_status, l.buy_limit_price)

/-- Fixture: a lot whose buy filled at 100 and whose sell leg is already
submitted (order 1) and still live. -/
def lotPendingSell : Lot :=
  ⟨1, 10, .bought, 100, some 100, 1, 0, some 1, some .sellSubmitted, some (1006/10), none, some 0⟩

/-- Fixture: a later lot whose buy filled at 200, not yet sold. -/
def lotAnchor200 : Lot := ⟨2, 11, .bought, 200, some 200, 1, 0, none, none, none, none, none⟩

/-- Fixture configuration with band `[50, 430]`, the grid, order size
and capital ceiling of `src/app.py`. -/
def cfgWide : Config := ⟨50, 430, 6/1000, 500, 10000, true⟩

/-- Fixture cycle input: market open at price 100.60, order lookups
fail, the sell submission for lot 1 is accepted as order 2, the buy
submission as order 3. -/
def inpResell : CycleInput :=
  ⟨true, 1006/10, fun _ => none, fun lid => if lid = 1 then some 2 else none, some 3, 5⟩

/-- Fixture: a single bought-at-100 lot with no sell leg. -/
def lotBought100 : Lot := ⟨1, 10, .bought, 100, some 100, 1, 0, none, none, none, none, none⟩

/-- Fixture configuration: the exact constants of `src/app.py`
(`LOWER_BAND=380`, `UPPER_BAND=430`, `GRID_PERCENT=0.006`,
`ORDER_USD=500`, `MAX_CAPITAL=10000`), trading enabled. -/
def cfgApp : Config := ⟨380, 430, 6/1000, 500, 10000, true⟩

/-- Fixture cycle input: market open at price 431 (above the band), the
sell submission is accepted as order 2. -/
def inpAbove : CycleInput := ⟨true, 431, fun _ => none, fun _ => some 2, some 3, 5⟩

/-- Fixture: a bought lot whose reported fill price is negative. -/
def lotNegFill : Lot := ⟨1, 10, .bought, 100, some (-100), 1, 0, none, none, none, none, none⟩

/-- Fixture configuration with band `[0, 430]` and the remaining
constants of `src/app.py`. -/
def cfgLow : Config := ⟨0, 430, 6/1000, 500, 10000, true⟩

/-- Fixture cycle input: market open at price 0.50, buy submission
accepted as order 1. -/
def inpHalf : CycleInput := ⟨true, 1/2, fun _ => none, fun _ => none, some 1, 0⟩

/-- Fixture cycle input: market open at price 0.49, every order lookup
reports a fill at 0.50, buy submission accepted as order 2. -/
def inpAfterFill : CycleInput := ⟨true, 49/100, fun _ => some ⟨true, 1/2⟩, fun _ => none, some 2, 1⟩

/-- Fixture configuration for the sell-trigger example: `grid_pct =
0.005`, a wide band, trading enabled. -/
def cfgGridHalf : Config := ⟨0, 10000, 5/1000, 500, 10000, true⟩

/-- Fixture cycle input at price 100.50, sell submissions accepted as
order 2. -/
def inpAt10050 : CycleInput := ⟨true, 1005/10, fun _ => none, fun _ => some 2, none, 7⟩

/-- Fixture cycle input at price 100.49, sell submissions accepted as
order 2. -/
def inpAt10049 : CycleInput := ⟨true, 10049/100, fun _ => none, fun _ => some 2, none, 7⟩

/-- Fixture: a bought-at-400 lot (limit 400), the anchor for the
397.60 grid-level example. -/
def lotAnchor400 : Lot := ⟨1, 20, .bought, 400, some 400, 1, 0, none, none, none, none, none⟩

/-- Fixture cycle input: market open at price 397.00, buy submission
accepted as order 7. -/
def inpAt397 : CycleInput := ⟨true, 397, fun _ => none, fun _ => none, some 7, 3⟩

/-- Fixture: a pending buy lot at limit price 90. -/
def lotPendingBuy90 : Lot :=
  ⟨1, 30, .buySubmitted, 90, none, 5, 0, none, none, none, none, none⟩

/-- Fixture cycle input for the reconciler witness: order 30 reports a
fill at 89.50. -/
def inpFill8950 : CycleInput :=
  ⟨true, 401, fun oid => if oid = 30 then some ⟨true, 895/10⟩ else none, fun _ => none, none, 9⟩

/-- Fixture cycle input: market closed. -/
def inpClosed : CycleInput := ⟨false, 400, fun _ => none, fun _ => none, some 1, 0⟩

/-- Fixture configuration like `cfgApp` but with `MAX_CAPITAL = 50`. -/
def cfgTight : Config := ⟨380, 430, 6/1000, 500, 50, true⟩

/-- Fixture cycle input: market open at price 400, sell submissions
accepted as order 2, buy submission accepted as order 9. -/
def inpAt400 : CycleInput := ⟨true, 400, fun _ => none, fun _ => some 2, some 9, 4⟩

/-- Fixture: a fully settled lot (bought at 100, sold at 100.60). -/
def lotSold : Lot :=
  ⟨3, 12, .bought, 100, some 100, 1, 0, some 13, some .sold, some (1006/10),
   some (1006/10), some 2⟩

/-- Fixture brokerage lookup: every order reports filled at 77. -/
def ordAll77 : ℕ → Option OrderInfo := fun _ => some ⟨true, 77⟩

theorem syncBuyLot_buy_limit (ord : ℕ → Option OrderInfo) (l : Lot) :
    (syncBuyLot ord l).buy_limit_price = l.buy_limit_price := by
  unfold syncBuyLot
  split
  · split
    · split <;> rfl
    · rfl
  · rfl

theorem syncBuyLot_submitted (ord : ℕ → Option OrderInfo) (l : Lot)
    (h : statusIsSubmitted (syncBuyLot ord l).buy_status = true) :
    statusIsSubmitted l.buy_status = true := by
  unfold syncBuyLot at h
  split at h
  · split at h
    · split at h
      · simp [statusIsSubmitted] at h
      · exact h
    · exact h
  · exact h

theorem syncBuyLot_sell_fields (ord : ℕ → Option OrderInfo) (l : Lot) :
    (syncBuyLot ord l).sell_status = l.sell_status ∧
    (syncBuyLot ord l).sell_filled_price = l.sell_filled_price ∧
    (syncBuyLot ord l).sell_order_id = l.sell_order_id ∧
    (syncBuyLot ord l).sell_limit_price = l.sell_limit_price := by
  unfold syncBuyLot
  split
  · split
    · split <;> exact ⟨rfl, rfl, rfl, rfl⟩
    · exact ⟨rfl, rfl, rfl, rfl⟩
  · exact ⟨rfl, rfl, rfl, rfl⟩

theorem syncBuyLot_of_bought (ord : ℕ → Option OrderInfo) (l : Lot)
    (h : l.buy_status = .bought) : syncBuyLot ord l = l := by
  unfold syncBuyLot
  rw [h]
  rfl

theorem syncSellLot_buy_fields (ord : ℕ → Option OrderInfo) (l : Lot) :
    (syncSellLot ord l).buy_status = l.buy_status ∧
    (syncSellLot ord l).buy_limit_price = l.buy_limit_price ∧
    (syncSellLot ord l).buy_filled_price = l.buy_filled_price := by
  unfold syncSellLot
  split
  · split
    · split
      · split <;> exact ⟨rfl, rfl, rfl⟩
      · exact ⟨rfl, rfl, rfl⟩
    · exact ⟨rfl, rfl, rfl⟩
  · exact ⟨rfl, rfl, rfl⟩

theorem syncSellLot_of_sold (ord : ℕ → Option OrderInfo) (l : Lot)
    (h : l.sell_status = some .sold) : syncSellLot ord l = l := by
  unfold syncSellLot
  rw [h]
  rfl

theorem sync_orders_length (ord : ℕ → Option OrderInfo) (st : List Lot) :
    (sync_orders ord st).length = st.length := by
  simp [sync_orders]

theorem applySellUpdate_buyProj (o : SellOrder) (t : ℕ) (st : List Lot) :
    (applySellUpdate o t st).map buyProj = st.map buyProj := by
  unfold applySellUpdate
  rw [List.map_map]
  apply List.map_congr_left
  intro l _
  by_cases h : l.id = o.lot_id <;> simp [h, buyProj]

theorem sell_state_buyProj (cfg : Config) (inp : CycleInput) (st1 : List Lot) :
    (sell_state cfg inp st1).map buyProj = st1.map buyProj := by
  unfold sell_state
  generalize st1.filter sellEligible = L
  induction L generalizing st1 with
  | nil => rfl
  | cons r L ih =>
      simp only [List.foldl_cons]
      cases hdec : sellDecision cfg inp r with
      | none => exact ih st1
      | some o =>
          exact (ih (applySellUpdate o inp.tNow st1)).trans
            (applySellUpdate_buyProj o inp.tNow st1)

theorem sell_state_length (cfg : Config) (inp : CycleInput) (st1 : List Lot) :
    (sell_state cfg inp st1).length = st1.length := by
  have h := congrArg List.length (sell_state_buyProj cfg inp st1)
  simpa using h

theorem pendingLevelSeparated_of_buyProj {a b a' b' : Lot}
    (ha : buyProj a' = buyProj a) (hb : buyProj b' = buyProj b)
    (h : pendingLevelSeparated a b) : pendingLevelSeparated a' b' := by
  intro ha' hb'
  have ha1 : a'.buy_status = a.buy_status := congrArg Prod.fst ha
  have ha2 : a'.buy_limit_price = a.buy_limit_price := congrArg Prod.snd ha
  have hb1 : b'.buy_status = b.buy_status := congrArg Prod.fst hb
  have hb2 : b'.buy_limit_price = b.buy_limit_price := congrArg Prod.snd hb
  rw [ha2, hb2]
  exact h (ha1 ▸ ha') (hb1 ▸ hb')

theorem pairwise_of_buyProj_eq {st st' : List Lot}
    (hproj : st'.map buyProj = st.map buyProj)
    (h : st.Pairwise pendingLevelSeparated) : st'.Pairwise pendingLevelSeparated := by
  have h1 : (st.map buyProj).Pairwise
      (fun p q => statusIsSubmitted p.1 = true → statusIsSubmitted q.1 = true →
        ¬ |p.2 - q.2| < 1/10000) := by
    rw [List.pairwise_map]
    exact h.imp fun hab => hab
  rw [← hproj, List.pairwise_map] at h1
  exact h1.imp fun hab => hab

theorem sync_orders_pairwise (ord : ℕ → Option OrderInfo) {st : List Lot}
    (h : st.Pairwise pendingLevelSeparated) :
    (sync_orders ord st).Pairwise pendingLevelSeparated := by
  unfold sync_orders
  rw [List.map_map]
  refine h.map _ ?_
  intro a b hab ha hb
  have ha2 := (syncSellLot_buy_fields ord (syncBuyLot ord a)).1
  have hb2 := (syncSellLot_buy_fields ord (syncBuyLot ord b)).1
  have ha' : statusIsSubmitted a.buy_status = true := by
    apply syncBuyLot_submitted ord a
    simpa [Function.comp, ha2] using ha
  have hb' : statusIsSubmitted b.buy_status = true := by
    apply syncBuyLot_submitted ord b
    simpa [Function.comp, hb2] using hb
  have la : ((syncSellLot ord (syncBuyLot ord a)).buy_limit_price) = a.buy_limit_price := by
    rw [(syncSellLot_buy_fields ord (syncBuyLot ord a)).2.1, syncBuyLot_buy_limit]
  have lb : ((syncSellLot ord (syncBuyLot ord b)).buy_limit_price) = b.buy_limit_price := by
    rw [(syncSellLot_buy_fields ord (syncBuyLot ord b)).2.1, syncBuyLot_buy_limit]
  simpa [Function.comp, la, lb] using hab ha' hb'

theorem open_buy_exists_false {st1 : List Lot} {p : ℚ}
    (h : open_buy_exists st1 p = false) :
    ∀ l ∈ st1, statusIsSubmitted l.buy_status = true → ¬ |l.buy_limit_price - p| < 1/10000 := by
  intro l hl hsub habs
  rw [open_buy_exists, List.any_eq_false] at h
  exact h l hl (by simp [hsub]; simpa [one_div] using habs)

theorem run_cycle_pairwise (cfg : Config) (inp : CycleInput) (st : List Lot)
    (h : st.Pairwise pendingLevelSeparated) :
    ((run_cycle cfg inp st).store).Pairwise pendingLevelSeparated := by
  unfold run_cycle
  by_cases hop : inp.is_open = true
  case neg => simp only [hop]; simpa using h
  case pos =>
  simp only [hop, if_true]
  have h1 : (sync_orders inp.ord st).Pairwise pendingLevelSeparated :=
    sync_orders_pairwise inp.ord h
  have hWproj := sell_state_buyProj cfg inp (sync_orders inp.ord st)
  have hW : (sell_state cfg inp (sync_orders inp.ord st)).Pairwise pendingLevelSeparated :=
    pairwise_of_buyProj_eq hWproj h1
  unfold buy_pass
  split
  · exact h1
  split
  · exact h1
  dsimp only
  split
  · exact h1
  split
  · exact h1
  next hdup =>
  split
  · exact h1
  split
  · exact h1
  split
  · exact hW
  next oid heq =>
  dsimp only
  rw [List.pairwise_append]
  refine ⟨hW, List.pairwise_singleton _ _, ?_⟩
  intro a ha b hb
  rw [List.mem_singleton] at hb
  subst hb
  intro hsub _
  have hproja : buyProj a ∈ (sell_state cfg inp (sync_orders inp.ord st)).map buyProj :=
    List.mem_map_of_mem buyProj ha
  rw [hWproj] at hproja
  obtain ⟨a', ha', hpa⟩ := List.mem_map.1 hproja
  have hsub' : statusIsSubmitted a'.buy_status = true := by
    have h5 := congrArg Prod.fst hpa
    simp only [buyProj] at h5
    rw [h5]; exact hsub
  have hlim : a'.buy_limit_price = a.buy_limit_price := by
    have h6 := congrArg Prod.snd hpa
    simpa [buyProj] using h6
  have hnd := open_buy_exists_false (by simpa using hdup) a' ha' hsub'
  simpa [mkBuyLot, hlim] using hnd

/-- C10: when the brokerage clock reports the market closed, `run_cycle`
returns immediately — no order is submitted, no lot is updated, and the
lot store is completely unchanged. -/
theorem c10_market_closed_noop (cfg : Config) (inp : CycleInput) (st : List Lot)
    (h : inp.is_open = false) :
    run_cycle cfg inp st = { store := st, sellOrders := [], buyOrder := none } := by
  simp [run_cycle, h]

theorem c10_market_closed_noop_witness :
    run_cycle cfgApp inpClosed [lotBought100]
      = { store := [lotBought100], sellOrders := [], buyOrder := none } :=
  c10_market_closed_noop cfgApp inpClosed [lotBought100] rfl

/-- C8: when `deployed_capital ≥ max_capital` at the start of the buy
pass, no buy order is submitted and no lot is inserted, regardless of
price, band position, or any other input (every path yields the
post-reconciliation store, whose length equals the input's). -/
theorem c8_capital_ceiling (cfg : Config) (inp : CycleInput) (st : List Lot)
    (hopen : inp.is_open = true)
    (hcap : cfg.max_capital ≤ deployed_capital (sync_orders inp.ord st)) :
    (run_cycle cfg inp st).buyOrder = none ∧
    (run_cycle cfg inp st).store = sync_orders inp.ord st ∧
    (run_cycle cfg inp st).store.length = st.length := by
  unfold run_cycle
  simp only [hopen, if_true]
  unfold buy_pass
  split
  · exact ⟨rfl, rfl, sync_orders_length inp.ord st⟩
  · exact ⟨rfl, rfl, sync_orders_length inp.ord st⟩

theorem c8_capital_ceiling_witness :
    (run_cycle cfgTight inpAt400 [lotBought100]).buyOrder = none ∧
    (run_cycle cfgTight inpAt400 [lotBought100]).store
        = sync_orders inpAt400.ord [lotBought100] ∧
    (run_cycle cfgTight inpAt400 [lotBought100]).store.length = [lotBought100].length :=
  c8_capital_ceiling cfgTight inpAt400 [lotBought100] rfl
    (by norm_num [sync_orders, syncBuyLot, syncSellLot, deployed_capital, statusIsBought,
      statusIsSubmitted, sellIsNull, List.filter_cons, cfgTight, inpAt400, lotBought100])

/-- C5 (counterexample): with the shared secret unset in the
environment, a request with the header absent is not rejected — the
route answers 200 and invokes the engine cycle, so the claim's "for all
configurations, including when the secret is unset" fails. -/
theorem c5_auth_counterexample :
    (run_route none none cfgApp inpClosed []).status = 200 ∧
    (run_route none none cfgApp inpClosed []).invoked = true := by
  constructor <;> rfl

/-- C5 (amended): when the configured secret is non-empty, every
request whose header is absent or mismatched receives a 403 and the
engine cycle is not invoked — no reconciliation, no orders, no lot-store
mutation. -/
theorem c5_auth_amended (s : String) (header : Option String) (cfg : Config)
    (inp : CycleInput) (st : List Lot) (hs : s ≠ "") (hh : header ≠ some s) :
    run_route (some s) header cfg inp st
      = { status := 403,
          result := { store := st, sellOrders := [], buyOrder := none },
          invoked := false } := by
  have hcond : strTruthy (some s) = true ∧ header ≠ some s :=
    ⟨by simp [strTruthy, hs], hh⟩
  unfold run_route
  rw [if_pos hcond]

theorem c5_auth_amended_witness :
    run_route (some "tok") none cfgApp inpClosed []
      = { status := 403,
          result := { store := [], sellOrders := [], buyOrder := none },
          invoked := false } :=
  c5_auth_amended "tok" none cfgApp inpClosed [] (by decide) (by decide)

/-- C9: the reconciler leaves settled lots unchanged for any brokerage
responses — a lot already `BOUGHT` keeps its `buy_status` and
`buy_filled_price`, and a `SOLD` lot keeps all its sell fields, so a
second run after a fill re-mutates nothing. -/
theorem c9_reconcile_settled_unchanged (ord : ℕ → Option OrderInfo) (st : List Lot)
    (i : ℕ) :
    ((st[i]?).map Lot.buy_status = some .bought →
      ((sync_orders ord st)[i]?).map Lot.buy_status = some .bought ∧
      ((sync_orders ord st)[i]?).map Lot.buy_filled_price
        = (st[i]?).map Lot.buy_filled_price) ∧
    ((st[i]?).map Lot.sell_status = some (some .sold) →
      ((sync_orders ord st)[i]?).map Lot.sell_status = some (some .sold) ∧
      ((sync_orders ord st)[i]?).map Lot.sell_filled_price
        = (st[i]?).map Lot.sell_filled_price ∧
      ((sync_orders ord st)[i]?).map Lot.sell_order_id
        = (st[i]?).map Lot.sell_order_id ∧
      ((sync_orders ord st)[i]?).map Lot.sell_limit_price
        = (st[i]?).map Lot.sell_limit_price) := by
  have hsync : (sync_orders ord st)[i]?
      = (st[i]?).map fun l => syncSellLot ord (syncBuyLot ord l) := by
    simp only [sync_orders, List.getElem?_map, Option.map_map]
    rfl
  cases hg : st[i]? with
  | none => simp [hsync, hg]
  | some l =>
      rw [hsync, hg]
      simp only [Option.map_some', Option.some.injEq]
      constructor
      · intro hb
        rw [syncBuyLot_of_bought ord l hb]
        have h3 := syncSellLot_buy_fields ord l
        exact ⟨h3.1.trans hb, h3.2.2⟩
      · intro hs
        have h4 := syncBuyLot_sell_fields ord l
        have hs' : (syncBuyLot ord l).sell_status = some .sold := h4.1.trans hs
        rw [syncSellLot_of_sold ord _ hs']
        exact ⟨hs', h4.2.1, h4.2.2.1, h4.2.2.2⟩

theorem c9_reconcile_settled_unchanged_witness :
    (((sync_orders ordAll77 [lotSold])[0]?).map Lot.buy_status = some .bought ∧
     ((sync_orders ordAll77 [lotSold])[0]?).map Lot.buy_filled_price
        = (([lotSold] : List Lot)[0]?).map Lot.buy_filled_price) ∧
    (((sync_orders ordAll77 [lotSold])[0]?).map Lot.sell_status = some (some .sold) ∧
     ((sync_orders ordAll77 [lotSold])[0]?).map Lot.sell_filled_price
        = (([lotSold] : List Lot)[0]?).map Lot.sell_filled_price ∧
     ((sync_orders ordAll77 [lotSold])[0]?).map Lot.sell_order_id
        = (([lotSold] : List Lot)[0]?).map Lot.sell_order_id ∧
     ((sync_orders ordAll77 [lotSold])[0]?).map Lot.sell_limit_price
        = (([lotSold] : List Lot)[0]?).map Lot.sell_limit_price) := by
  have h := c9_reconcile_settled_unchanged ordAll77 [lotSold] 0
  exact ⟨h.1 (by rfl), h.2 (by rfl)⟩

theorem deployed_capital_eq_by_row (st : List Lot) :
    deployed_capital st = capital_by_row st := by
  induction st with
  | nil => simp [deployed_capital, capital_by_row]
  | cons a t ih =>
      simp only [deployed_capital, capital_by_row, List.filter_cons, List.map_cons,
        List.sum_cons] at ih ⊢
      cases hbn : statusIsBought a.buy_status && sellIsNull a.sell_status <;>
        cases hs : statusIsSubmitted a.buy_status <;>
          simp only [hbn, hs, Bool.false_eq_true, if_false, if_true, zero_add, ite_true,
            ite_false, List.map_cons, List.sum_cons] <;> linarith [ih]

/-- C3 (counterexample): `deployed_capital` differs from the claim's sum
on a lot with `sell_status='SELL_SUBMITTED'` (the code's `sell_status IS
NULL` filter excludes it), and it is negative on a lot set with a
negative reported fill price, so neither the "`sell_status ≠ SOLD`" part
nor the unconditional "always ≥ 0" part holds for every lot set. -/
theorem c3_deployed_capital_counterexample :
    deployed_capital [lotPendingSell] ≠ spec_deployed_capital [lotPendingSell] ∧
    deployed_capital [lotNegFill] < 0 := by
  constructor
  · norm_num [deployed_capital, spec_deployed_capital, lotPendingSell, statusIsBought,
      statusIsSubmitted, sellIsNull, sellIsSold, List.filter_cons]
  · norm_num [deployed_capital, lotNegFill, statusIsBought, statusIsSubmitted,
      sellIsNull, List.filter_cons]

/-- C3 (amended): for every lot set, `deployed_capital` equals the sum
of `buy_filled_price × qty` over lots with `buy_status=BOUGHT ∧
sell_status IS NULL` (lots with a submitted or filled sell are excluded)
plus the sum of `buy_limit_price × qty` over lots with
`buy_status=BUY_SUBMITTED`; it is ≥ 0 whenever all matched prices and
quantities are ≥ 0, and it is 0 (never null) when no lots match. -/
theorem c3_deployed_capital_amended (st : List Lot) :
    deployed_capital st = capital_by_row st ∧
    ((∀ l ∈ st, 0 ≤ l.buy_filled_price.getD 0 ∧ 0 ≤ l.buy_limit_price ∧ 0 ≤ l.qty) →
      0 ≤ deployed_capital st) ∧
    ((∀ l ∈ st, (statusIsBought l.buy_status && sellIsNull l.sell_status) = false ∧
        statusIsSubmitted l.buy_status = false) →
      deployed_capital st = 0) := by
  refine ⟨deployed_capital_eq_by_row st, fun hpos => ?_, fun hnone => ?_⟩
  · rw [deployed_capital_eq_by_row]
    apply List.sum_nonneg
    intro x hx
    obtain ⟨l, hl, rfl⟩ := List.mem_map.1 hx
    have hp := hpos l hl
    have h1 : (0:ℚ) ≤ if statusIsBought l.buy_status && sellIsNull l.sell_status then
        l.buy_filled_price.getD 0 * (l.qty : ℚ) else 0 := by
      split
      · exact mul_nonneg hp.1 (by exact_mod_cast hp.2.2)
      · exact le_refl 0
    have h2 : (0:ℚ) ≤ if statusIsSubmitted l.buy_status then
        l.buy_limit_price * (l.qty : ℚ) else 0 := by
      split
      · exact mul_nonneg hp.2.1 (by exact_mod_cast hp.2.2)
      · exact le_refl 0
    exact add_nonneg h1 h2
  · unfold deployed_capital
    rw [List.filter_eq_nil_iff.2 fun a ha => by simp [(hnone a ha).1],
      List.filter_eq_nil_iff.2 fun a ha => by simp [(hnone a ha).2]]
    simp

theorem c3_deployed_capital_amended_witness :
    deployed_capital [lotBought100] = capital_by_row [lotBought100] ∧
    0 ≤ deployed_capital [lotBought100] ∧
    deployed_capital [lotSold] = 0 := by
  refine ⟨(c3_deployed_capital_amended [lotBought100]).1,
    (c3_deployed_capital_amended [lotBought100]).2.1 ?_,
    (c3_deployed_capital_amended [lotSold]).2.2 ?_⟩
  · intro l hl
    rw [List.mem_singleton] at hl
    subst hl
    norm_num [lotBought100]
  · intro l hl
    rw [List.mem_singleton] at hl
    subst hl
    exact ⟨rfl, rfl⟩

theorem sellDecision_eq_some {cfg : Config} {inp : CycleInput} {r : Lot} {o : SellOrder}
    (h : sellDecision cfg inp r = some o) :
    round_price (r.buy_filled_price.getD 0 * (1 + cfg.grid_pct)) ≤ inp.price ∧
    o.lot_id = r.id ∧
    o.limit_price = round_price (r.buy_filled_price.getD 0 * (1 + cfg.grid_pct)) ∧
    o.qty = r.qty := by
  unfold sellDecision at h
  split at h
  · split at h
    · split at h
      · cases h
        exact ⟨by assumption, rfl, rfl, rfl⟩
      · exact absurd h (by simp)
    · exact absurd h (by simp)
  · exact absurd h (by simp)

/-- C6: for an eligible lot the sell target is `round(buy_filled_price ×
(1 + grid_pct), 2)`, and (with trading enabled and the brokerage
accepting the submission) a limit sell at that target for the lot's
`qty` is submitted if and only if `current_price ≥ target`. -/
theorem c6_sell_trigger_iff (cfg : Config) (inp : CycleInput) (st1 : List Lot) (l : Lot)
    (oid : ℕ) (hnodup : (st1.map Lot.id).Nodup) (hl : l ∈ st1)
    (he : sellEligible l = true) (ht : cfg.trading_enabled = true)
    (hs : inp.sellSubmit l.id = some oid) :
    (∃ o ∈ sell_orders cfg inp st1, o.lot_id = l.id ∧
        o.limit_price = round_price (l.buy_filled_price.getD 0 * (1 + cfg.grid_pct)) ∧
        o.qty = l.qty) ↔
      round_price (l.buy_filled_price.getD 0 * (1 + cfg.grid_pct)) ≤ inp.price := by
  constructor
  · rintro ⟨o, ho, hlot, -, -⟩
    obtain ⟨a, ha, hdec⟩ := List.mem_filterMap.1 ho
    have hfacts := sellDecision_eq_some hdec
    have haid : a.id = l.id := hfacts.2.1.symm.trans hlot
    have ha' : a ∈ st1 := (List.mem_filter.1 ha).1
    have hal : a = l := List.inj_on_of_nodup_map hnodup ha' hl haid
    rw [← hal]
    exact hfacts.1
  · intro htrig
    refine ⟨⟨oid, l.id, round_price (l.buy_filled_price.getD 0 * (1 + cfg.grid_pct)),
        l.qty⟩, ?_, rfl, rfl, rfl⟩
    apply List.mem_filterMap.2
    refine ⟨l, List.mem_filter.2 ⟨hl, he⟩, ?_⟩
    unfold sellDecision
    rw [if_pos htrig, if_pos ht, hs]

theorem c6_sell_trigger_iff_witness :
    (∃ o ∈ sell_orders cfgGridHalf inpAt10050 [lotBought100], o.lot_id = lotBought100.id ∧
        o.limit_price = round_price (lotBought100.buy_filled_price.getD 0
          * (1 + cfgGridHalf.grid_pct)) ∧
        o.qty = lotBought100.qty) ∧
    ¬(∃ o ∈ sell_orders cfgGridHalf inpAt10049 [lotBought100], o.lot_id = lotBought100.id ∧
        o.limit_price = round_price (lotBought100.buy_filled_price.getD 0
          * (1 + cfgGridHalf.grid_pct)) ∧
        o.qty = lotBought100.qty) := by
  constructor
  · refine (c6_sell_trigger_iff cfgGridHalf inpAt10050 [lotBought100] lotBought100 2
      (by simp) (by simp) (by rfl) rfl rfl).2 ?_
    norm_num [round_price, round_half_even, lotBought100, cfgGridHalf, inpAt10050]
  · intro hex
    have := (c6_sell_trigger_iff cfgGridHalf inpAt10049 [lotBought100] lotBought100 2
      (by simp) (by simp) (by rfl) rfl rfl).1 hex
    norm_num [round_price, round_half_even, lotBought100, cfgGridHalf, inpAt10049] at this

/-- C7: the buy-pass anchor policy.  With the market open, the price in
band and capital below the ceiling: the anchor is the most recent
`buy_filled_price` among `BOUGHT` rows if one exists, else
`current_price`; `buy_price = round(anchor × (1 − grid_pct), 2)`; no buy
fires when `current_price > buy_price`; when `current_price ≤ buy_price`
and the remaining guards pass (no duplicate pending level, positive
quantity, trading enabled, submission accepted) exactly one limit buy of
`qty = ⌊order_usd / buy_price⌋` units at `buy_price` is submitted and
exactly one lot row is appended with `buy_status=BUY_SUBMITTED`; and no
row is appended when `qty ≤ 0` or the submission fails. -/
theorem c7_buy_policy (cfg : Config) (inp : CycleInput) (st st1 stW : List Lot)
    (bp : ℚ) (q : ℤ)
    (hopen : inp.is_open = true)
    (hst1 : st1 = sync_orders inp.ord st)
    (hstW : stW = sell_state cfg inp st1)
    (hbp : bp = round_price (((last_filled_buy_price stW).getD inp.price)
      * (1 - cfg.grid_pct)))
    (hq : q = ⌊cfg.order_usd / bp⌋)
    (hband : cfg.lower_band ≤ inp.price ∧ inp.price ≤ cfg.upper_band)
    (hcap : deployed_capital st1 < cfg.max_capital) :
    (bp < inp.price →
      (run_cycle cfg inp st).buyOrder = none ∧ (run_cycle cfg inp st).store = st1) ∧
    (∀ oid, inp.price ≤ bp → open_buy_exists st1 bp = false → 0 < q →
      cfg.trading_enabled = true → inp.buySubmit = some oid →
      (run_cycle cfg inp st).store = stW ++ [mkBuyLot (next_id stW) oid bp q inp.tNow] ∧
      (run_cycle cfg inp st).buyOrder = some oid) ∧
    (inp.price ≤ bp → open_buy_exists st1 bp = false → q ≤ 0 →
      (run_cycle cfg inp st).buyOrder = none ∧ (run_cycle cfg inp st).store = st1) ∧
    (inp.price ≤ bp → open_buy_exists st1 bp = false → 0 < q →
      cfg.trading_enabled = true → inp.buySubmit = none →
      (run_cycle cfg inp st).buyOrder = none ∧ (run_cycle cfg inp st).store = stW ∧
      (run_cycle cfg inp st).store.length = st.length) := by
  subst hst1
  subst hstW
  subst hbp
  subst hq
  unfold run_cycle
  simp only [hopen, if_true]
  unfold buy_pass
  rw [if_neg (not_not_intro hband), if_neg (not_le.2 hcap)]
  dsimp only
  refine ⟨?_, ?_, ?_, ?_⟩
  · intro hlt
    rw [if_pos hlt]
    exact ⟨rfl, rfl⟩
  · intro oid hle hdup hqpos ht hsub
    rw [if_neg (not_lt.2 hle), if_neg (by simp [hdup]), if_neg (not_le.2 hqpos),
      if_neg (by simp [ht]), hsub]
    exact ⟨rfl, rfl⟩
  · intro hle hdup hqle
    rw [if_neg (not_lt.2 hle), if_neg (by simp [hdup]), if_pos hqle]
    exact ⟨rfl, rfl⟩
  · intro hle hdup hqpos ht hsub
    rw [if_neg (not_lt.2 hle), if_neg (by simp [hdup]), if_neg (not_le.2 hqpos),
      if_neg (by simp [ht]), hsub]
    refine ⟨rfl, rfl, ?_⟩
    exact (sell_state_length cfg inp (sync_orders inp.ord st)).trans
      (sync_orders_length inp.ord st)

theorem c7_buy_policy_witness :
    (run_cycle cfgApp inpAt397 [lotAnchor400]).store
        = [lotAnchor400] ++ [mkBuyLot (next_id [lotAnchor400]) 7 (1988/5) 1 inpAt397.tNow] ∧
    (run_cycle cfgApp inpAt397 [lotAnchor400]).buyOrder = some 7 := by
  refine (c7_buy_policy cfgApp inpAt397 [lotAnchor400] [lotAnchor400] [lotAnchor400]
    (1988/5) 1 rfl ?_ ?_ ?_ ?_ ?_ ?_).2.1 7 ?_ ?_ ?_ rfl rfl
  · norm_num [sync_orders, syncBuyLot, syncSellLot, statusIsSubmitted, lotAnchor400,
      inpAt397]
  · norm_num [sell_state, sellDecision, sellEligible, statusIsBought, sellIsSold,
      round_price, round_half_even, List.filter_cons, lotAnchor400, cfgApp, inpAt397]
  · norm_num [last_filled_buy_price, statusIsBought, List.filter_cons, round_price,
      round_half_even, lotAnchor400, cfgApp, inpAt397]
  · norm_num [cfgApp]
  · norm_num [cfgApp, inpAt397]
  · norm_num [deployed_capital, statusIsBought, statusIsSubmitted, sellIsNull,
      List.filter_cons, lotAnchor400, cfgApp]
  · norm_num [cfgApp, inpAt397]
  · norm_num [open_buy_exists, statusIsSubmitted, lotAnchor400]
  · norm_num

/-- C1 (code violation at a concrete input): the sell query keeps rows
with `sell_status='SELL_SUBMITTED'` (`sell_status IS NULL OR
sell_status!='SOLD'`), so on a lot whose sell leg is already pending
(order 1 outstanding) the sell pass submits a second sell (order 2) and
re-applies the sell-submitted update, overwriting `sell_order_id` —
`mark_sell_submitted` is not guarded by `sell_status≠SELL_SUBMITTED` and
the per-lot state machine re-enters `SELL_SUBMITTED`. -/
theorem c1_second_sell_while_pending :
    lotPendingSell.sell_status = some .sellSubmitted ∧
    lotPendingSell.sell_order_id = some 1 ∧
    (run_cycle cfgWide inpResell [lotPendingSell, lotAnchor200]).sellOrders
      = [⟨2, 1, 503/5, 1⟩] ∧
    ((run_cycle cfgWide inpResell [lotPendingSell, lotAnchor200]).store.map
        Lot.sell_order_id) = [some 2, none, none] := by
  refine ⟨rfl, rfl, ?_, ?_⟩ <;>
    norm_num [run_cycle, buy_pass, sync_orders, syncBuyLot, syncSellLot, sell_state,
      sell_orders, sellDecision, deployed_capital, open_buy_exists, last_filled_buy_price,
      sellEligible, statusIsBought, statusIsSubmitted, sellIsNull, sellIsSold,
      round_price, round_half_even, applySellUpdate, next_id, mkBuyLot,
      List.filter_cons, List.filterMap_cons,
      cfgWide, inpResell, lotPendingSell, lotAnchor200]

/-- C2 (code violation at a concrete input): on a lot bought at 100 with
the price at 431, the sell pass submits a sell (order 2, accepted by the
brokerage), but the buy pass then exits through the outside-band branch,
which closes the connection without committing — the staged
`SELL_SUBMITTED` update is rolled back and the cycle ends with a live
sell order whose lot still shows no sell submission. -/
theorem c2_sell_record_lost_on_early_return :
    lotBought100.sell_status = none ∧
    (run_cycle cfgApp inpAbove [lotBought100]).sellOrders = [⟨2, 1, 503/5, 1⟩] ∧
    (run_cycle cfgApp inpAbove [lotBought100]).store = [lotBought100] := by
  refine ⟨rfl, ?_, ?_⟩ <;>
    norm_num [run_cycle, buy_pass, sync_orders, syncBuyLot, syncSellLot, sell_state,
      sell_orders, sellDecision, deployed_capital, open_buy_exists, last_filled_buy_price,
      sellEligible, statusIsBought, statusIsSubmitted, sellIsNull, sellIsSold,
      round_price, round_half_even, applySellUpdate, next_id, mkBuyLot,
      List.filter_cons, List.filterMap_cons,
      cfgApp, inpAbove, lotBought100]

/-- C4 (counterexample): a reachable two-cycle run — buy 1000 units at
limit 0.50, let the buy fill at 0.50, then buy again at price 0.49 —
ends with two lots holding open buys (one `BOUGHT` and unsold, one
`BUY_SUBMITTED`) at the same `buy_limit_price` 0.50, because
`open_buy_exists` only screens `BUY_SUBMITTED` rows. -/
theorem c4_duplicate_level_counterexample :
    Reach (run_cycle cfgLow inpAfterFill (run_cycle cfgLow inpHalf []).store).store ∧
    ((run_cycle cfgLow inpAfterFill (run_cycle cfgLow inpHalf []).store).store.filter
        fun l => claimOpenBuy l && decide (l.buy_limit_price = 1/2)).length = 2 := by
  constructor
  · exact Reach.step cfgLow inpAfterFill _ (Reach.step cfgLow inpHalf [] Reach.empty)
  · norm_num [run_cycle, buy_pass, sync_orders, syncBuyLot, syncSellLot, sell_state,
      sell_orders, sellDecision, deployed_capital, open_buy_exists, last_filled_buy_price,
      sellEligible, statusIsBought, statusIsSubmitted, sellIsNull, sellIsSold,
      round_price, round_half_even, applySellUpdate, next_id, mkBuyLot, claimOpenBuy,
      List.filter_cons, List.filterMap_cons,
      cfgLow, inpHalf, inpAfterFill]

/-- C4 (amended): at every reachable state, at most one lot holds a
pending (`BUY_SUBMITTED`) buy at a given `buy_limit_price` — any two
pending buys are at least the 0.0001 duplicate-level tolerance apart, so
when a pending buy already exists within 0.0001 of the computed
`buy_price` the buy pass creates no second lot at that level. -/
theorem c4_pending_duplicate_level_invariant (st : List Lot) (h : Reach st) :
    st.Pairwise pendingLevelSeparated := by
  induction h with
  | empty => exact List.Pairwise.nil
  | step cfg inp st h ih => exact run_cycle_pairwise cfg inp st ih

theorem c4_pending_duplicate_level_invariant_witness :
    ((run_cycle cfgLow inpHalf []).store).Pairwise pendingLevelSeparated :=
  c4_pending_duplicate_level_invariant _ (Reach.step cfgLow inpHalf [] Reach.empty)
